import Mathlib

/-!
Shallow embedding of `src/backend/routers/announcements.py`: a small HTTP
service managing announcements with five operations (list-active, list-all,
create, update, delete) over a document store, plus a teacher-identity lookup
used as an authorization gate.

Modelling choices:
* Timestamps (`datetime`) are modelled as `Int` (a totally ordered point in
  time); `datetime.fromisoformat` is an external library function, so the
  operations are parameterized by a parse function `String → Option Int`
  (`none` = the parse raises).
* `ObjectId(ann_id)` validation is likewise parameterized by
  `parseOid : String → Option Nat`; document ids are `Nat` and `str(_id)` is
  `toString`.
* The announcement collection is an association list `List (Nat × Announcement)`;
  Mongo's `find_one` / `update_one` / `delete_one` act on the first match.
  A BSON field that is null and a field that is absent are both modelled as
  `none` (the Mongo query in the source treats the two alike).
* `HTTPException(status_code, detail)` becomes an error value; each endpoint
  returns `Except HTTPException α`, and mutating endpoints also return the new
  store.
* `datetime.utcnow()` is passed in as the parameter `now`; the id the store
  assigns in `insert_one` is passed in as `newId`.
-/

/-- An announcement document as persisted by `create_announcement`. -/
structure Announcement where
  message : String
  starts_at : Option Int
  expires_at : Int
  created_by : String
  created_at : Int
deriving DecidableEq, Repr

/-- The announcement collection: documents keyed by their store-assigned id. -/
abbrev Store := List (Nat × Announcement)

/-- A teacher identity record: keyed by `tid` (the Mongo `_id`), with an
optional `username` field (the document is schema-flexible). -/
structure Teacher where
  tid : String
  username : Option String
deriving DecidableEq, Repr

/-- `HTTPException(status_code=..., detail=...)`. -/
structure HTTPException where
  status_code : Nat
  detail : String
deriving DecidableEq, Repr

/-- `teachers_collection.find_one({"_id": username})`. -/
def find_one_teacher (u : String) : List Teacher → Option Teacher
  | [] => none
  | t :: rest => if t.tid = u then some t else find_one_teacher u rest

/-- `_require_teacher` (lines 17-23): 401 when the username is absent or empty
(Python falsiness of `not username`), 401 when no teacher record matches,
otherwise returns the teacher record. -/
def require_teacher (teachers : List Teacher) (username : Option String) :
    Except HTTPException Teacher :=
  match username with
  | none => .error ⟨401, "Authentication required for this action"⟩
  | some u =>
    if u = "" then .error ⟨401, "Authentication required for this action"⟩
    else
      match find_one_teacher u teachers with
      | none => .error ⟨401, "Invalid teacher credentials"⟩
      | some t => .ok t

/-- The Mongo query of `get_active_announcements` (lines 30-37): `expires_at`
strictly after `now`, and `starts_at` ≤ `now` or null or missing. -/
def mongoActiveQuery (now : Int) (a : Announcement) : Bool :=
  decide (now < a.expires_at) &&
    (match a.starts_at with
     | some s => decide (s ≤ now)
     | none => true)

/-- `.sort("expires_at", 1)`: ascending by the `expires_at` field. -/
def expLe (p q : Nat × Announcement) : Prop :=
  p.2.expires_at ≤ q.2.expires_at

instance : DecidableRel expLe := fun p q => Int.decLe p.2.expires_at q.2.expires_at

instance : IsTotal (Nat × Announcement) expLe := ⟨fun p q => Int.le_total p.2.expires_at q.2.expires_at⟩

instance : IsTrans (Nat × Announcement) expLe := ⟨fun _ _ _ h h2 => Int.le_trans h h2⟩

/-- Response shaping shared by lines 40-46 and 56-62: the dict pushed onto
`results` for each document. -/
structure Item where
  id : String
  message : String
  starts_at : Option Int
  expires_at : Int
  created_by : String
deriving DecidableEq, Repr

/-- One result item (lines 40-46): `{"id": str(_id), "message", "starts_at",
"expires_at", "created_by"}`. -/
def shapeDoc (p : Nat × Announcement) : Item :=
  ⟨toString p.1, p.2.message, p.2.starts_at, p.2.expires_at, p.2.created_by⟩

/-- `get_active_announcements` (lines 26-47): filter by the active query, sort
ascending by `expires_at`, shape each document. Public, never fails. -/
def get_active_announcements (now : Int) (store : Store) : List Item :=
  (List.insertionSort expLe (store.filter (fun p => mongoActiveQuery now p.2))).map shapeDoc

/-- `get_all_announcements` (lines 50-63): authorize, then return every stored
announcement, same sort and shaping as the active listing. -/
def get_all_announcements (teachers : List Teacher) (teacher_username : Option String)
    (store : Store) : Except HTTPException (List Item) :=
  match require_teacher teachers teacher_username with
  | .error e => .error e
  | .ok _ => .ok ((List.insertionSort expLe store).map shapeDoc)

/-- Lines 79-84 of `create_announcement`: `starts_dt = None` unless a truthy
(non-empty) `starts_at` was supplied, in which case it must parse. -/
def parseStartsCreate (parse : String → Option Int) (starts_at : Option String) :
    Except HTTPException (Option Int) :=
  match starts_at with
  | none => .ok none
  | some s =>
    if s = "" then .ok none
    else
      match parse s with
      | none => .error ⟨400, "Invalid starts_at format. Use ISO datetime format (e.g. YYYY-MM-DDTHH:MM)"⟩
      | some d => .ok (some d)

/-- The response of a successful create: `{"id": str(inserted_id), "message": message}`. -/
structure CreateResp where
  id : String
  message : String
deriving DecidableEq, Repr

/-- `create_announcement` (lines 66-95). `newId` is the opaque id the store
assigns in `insert_one`; `now` is `datetime.utcnow()`. Returns the updated
store together with the response body. -/
def create_announcement (parse : String → Option Int) (now : Int)
    (teachers : List Teacher) (newId : Nat) (store : Store)
    (message expires_at : String) (starts_at : Option String)
    (teacher_username : Option String) :
    Except HTTPException (Store × CreateResp) :=
  match require_teacher teachers teacher_username with
  | .error e => .error e
  | .ok teacher =>
    if message = "" ∨ expires_at = "" then
      .error ⟨400, "Message and expires_at are required"⟩
    else
      match parse expires_at with
      | none => .error ⟨400, "Invalid expires_at format. Use ISO datetime format (e.g. YYYY-MM-DDTHH:MM)"⟩
      | some expires_dt =>
        match parseStartsCreate parse starts_at with
        | .error e => .error e
        | .ok starts_dt =>
          .ok (store ++ [(newId, ⟨message, starts_dt, expires_dt,
                 teacher.username.getD teacher.tid, now⟩)],
               ⟨toString newId, message⟩)

/-- The `update` dict built on lines 108-123: for `starts_at`,
`some none` means "set the stored field to null". -/
structure UpdateFields where
  message : Option String
  expires_at : Option Int
  starts_at : Option (Option Int)
deriving DecidableEq, Repr

/-- `if not update:` — the dict is empty when no field was supplied (and
parsed). -/
def UpdateFields.isEmpty (u : UpdateFields) : Bool :=
  u.message.isNone && u.expires_at.isNone && u.starts_at.isNone

/-- Lines 111-115 of `update_announcement`: a supplied `expires_at` must
parse. -/
def parseExpiresUpdate (parse : String → Option Int) (expires_at : Option String) :
    Except HTTPException (Option Int) :=
  match expires_at with
  | none => .ok none
  | some s =>
    match parse s with
    | none => .error ⟨400, "Invalid expires_at format"⟩
    | some d => .ok (some d)

/-- Lines 116-123 of `update_announcement`: a supplied `starts_at` clears the
stored field when it is the empty string, and must parse otherwise. -/
def parseStartsUpdate (parse : String → Option Int) (starts_at : Option String) :
    Except HTTPException (Option (Option Int)) :=
  match starts_at with
  | none => .ok none
  | some s =>
    if s = "" then .ok (some none)
    else
      match parse s with
      | none => .error ⟨400, "Invalid starts_at format"⟩
      | some d => .ok (some (some d))

/-- Lines 108-123 of `update_announcement`: build the `$set` document.
`message` goes in verbatim whenever supplied (even empty). -/
def buildUpdate (parse : String → Option Int) (message expires_at starts_at : Option String) :
    Except HTTPException UpdateFields :=
  match parseExpiresUpdate parse expires_at with
  | .error e => .error e
  | .ok expOpt =>
    match parseStartsUpdate parse starts_at with
    | .error e => .error e
    | .ok saOpt => .ok ⟨message, expOpt, saOpt⟩

/-- The effect of Mongo's `{"$set": update}` on one matched document. -/
def applyUpdate (u : UpdateFields) (a : Announcement) : Announcement :=
  ⟨u.message.getD a.message, u.starts_at.getD a.starts_at,
   u.expires_at.getD a.expires_at, a.created_by, a.created_at⟩

/-- `update_one({"_id": oid}, {"$set": update})`: rewrite the first document
whose id matches, returning the new collection and `matched_count`. -/
def updateFirst (oid : Nat) (u : UpdateFields) : Store → Store × Nat
  | [] => ([], 0)
  | p :: rest =>
    if p.1 = oid then ((p.1, applyUpdate u p.2) :: rest, 1)
    else
      let r := updateFirst oid u rest
      (p :: r.1, r.2)

/-- `find_one` by id on the announcement collection (first match). -/
def lookupDoc (oid : Nat) : Store → Option Announcement
  | [] => none
  | p :: rest => if p.1 = oid then some p.2 else lookupDoc oid rest

/-- The response of a successful update: `{"id": ann_id, "updated": True}`. -/
structure UpdateResp where
  id : String
  updated : Bool
deriving DecidableEq, Repr

/-- `update_announcement` (lines 98-132): authorize, validate the id, build
the partial update, reject an empty update, 404 when nothing matched. -/
def update_announcement (parse : String → Option Int) (parseOid : String → Option Nat)
    (teachers : List Teacher) (store : Store) (ann_id : String)
    (message expires_at starts_at : Option String) (teacher_username : Option String) :
    Except HTTPException (Store × UpdateResp) :=
  match require_teacher teachers teacher_username with
  | .error e => .error e
  | .ok _ =>
    match parseOid ann_id with
    | none => .error ⟨400, "Invalid announcement id"⟩
    | some oid =>
      match buildUpdate parse message expires_at starts_at with
      | .error e => .error e
      | .ok u =>
        if u.isEmpty then .error ⟨400, "No fields to update"⟩
        else
          let r := updateFirst oid u store
          if r.2 = 0 then .error ⟨404, "Announcement not found"⟩
          else .ok (r.1, ⟨ann_id, true⟩)

/-- `delete_one({"_id": oid})`: remove the first document whose id matches,
returning the new collection and `deleted_count`. -/
def deleteFirst (oid : Nat) : Store → Store × Nat
  | [] => ([], 0)
  | p :: rest =>
    if p.1 = oid then (rest, 1)
    else
      let r := deleteFirst oid rest
      (p :: r.1, r.2)

/-- The response of a successful delete: `{"id": ann_id, "deleted": True}`. -/
structure DeleteResp where
  id : String
  deleted : Bool
deriving DecidableEq, Repr

/-- `delete_announcement` (lines 135-148): authorize, validate the id, delete,
404 when nothing was deleted. -/
def delete_announcement (parseOid : String → Option Nat) (teachers : List Teacher)
    (store : Store) (ann_id : String) (teacher_username : Option String) :
    Except HTTPException (Store × DeleteResp) :=
  match require_teacher teachers teacher_username with
  | .error e => .error e
  | .ok _ =>
    match parseOid ann_id with
    | none => .error ⟨400, "Invalid announcement id"⟩
    | some oid =>
      let r := deleteFirst oid store
      if r.2 = 0 then .error ⟨404, "Announcement not found"⟩
      else .ok (r.1, ⟨ann_id, true⟩)

/-! ## Spec-side predicates -/

/-- Spec-side notion of "active": `expires_at` strictly greater than the
current time, and `starts_at` absent/null or at most the current time. -/
def specActive (now : Int) (a : Announcement) : Prop :=
  now < a.expires_at ∧ (a.starts_at = none ∨ ∃ s, a.starts_at = some s ∧ s ≤ now)

instance (now : Int) (a : Announcement) : Decidable (specActive now a) :=
  decidable_of_iff (mongoActiveQuery now a = true) (by
    unfold mongoActiveQuery specActive
    rcases h : a.starts_at with _ | s <;> simp [h])

/-- Spec-side authorization failure: the caller-supplied identifier is absent,
empty, or matches no teacher record in the store. -/
def authFailSpec (teachers : List Teacher) (username : Option String) : Prop :=
  username = none ∨ username = some "" ∨
    ∃ u, username = some u ∧ ∀ t ∈ teachers, t.tid ≠ u

/-- The `Unauthenticated` error kind: an error response with status 401. -/
def isUnauthenticated {α : Type} (r : Except HTTPException α) : Prop :=
  ∃ e, r = .error e ∧ e.status_code = 401

/-! ## Concrete fixtures used to witness and refute claims -/

/-- A concrete stand-in for `datetime.fromisoformat`: parses the few ISO
strings the examples use, fails on everything else (in particular on
`"not-a-date"` and on the empty string, as the real parser does). -/
def demoParse : String → Option Int
  | "2099-01-01T00:00" => some 99
  | "2020-01-01T00:00" => some 20
  | "2021-05-05T10:00" => some 30
  | _ => none

/-- A concrete stand-in for `ObjectId` validation: the listed strings are
well-formed ids, everything else raises. -/
def demoOid : String → Option Nat
  | "1" => some 1
  | "2" => some 2
  | "7" => some 7
  | "99" => some 99
  | _ => none

def demoTeachers : List Teacher := [⟨"alice", some "Ms Alice"⟩, ⟨"bob", none⟩]

def demoAnn : Announcement := ⟨"Hello", none, 99, "Ms Alice", 0⟩

def demoStore : Store := [(1, demoAnn)]

def demoAnn2 : Announcement := ⟨"Hey", some 20, 99, "bob", 0⟩

def demoStore2 : Store := [(7, demoAnn2)]

/-! ## Theorems -/

theorem mongoActiveQuery_iff (now : Int) (a : Announcement) :
    mongoActiveQuery now a = true ↔ specActive now a := by
  unfold mongoActiveQuery specActive
  rcases h : a.starts_at with _ | s <;> simp [h]

theorem decide_specActive (now : Int) (a : Announcement) :
    decide (specActive now a) = mongoActiveQuery now a := by
  by_cases h : specActive now a
  · simp [h, (mongoActiveQuery_iff now a).mpr h]
  · have hb : mongoActiveQuery now a = false := by
      cases hq : mongoActiveQuery now a
      · rfl
      · exact absurd ((mongoActiveQuery_iff now a).mp hq) h
    simp [h, hb]

/-- Claim C1: for every store state and current time, `list-active` returns
exactly the stored announcements with `expires_at` strictly greater than `now`
and `starts_at` absent or at most `now`, sorted ascending by `expires_at`,
each shaped as `{id (string), message, starts_at, expires_at, created_by}`. -/
theorem c1_list_active_exact_and_sorted (now : Int) (store : Store) :
    (get_active_announcements now store).Perm
      ((store.filter (fun p => decide (specActive now p.2))).map
        (fun p => Item.mk (toString p.1) p.2.message p.2.starts_at
          p.2.expires_at p.2.created_by))
    ∧ List.Pairwise (fun i j => i.expires_at ≤ j.expires_at)
        (get_active_announcements now store) := by
  constructor
  · have hfil : store.filter (fun p => decide (specActive now p.2))
        = store.filter (fun p => mongoActiveQuery now p.2) :=
      List.filter_congr (fun p _ => decide_specActive now p.2)
    rw [hfil]
    unfold get_active_announcements
    exact (List.perm_insertionSort expLe
      (store.filter (fun p => mongoActiveQuery now p.2))).map shapeDoc
  · unfold get_active_announcements
    have hs := List.sorted_insertionSort expLe
      (store.filter (fun p => mongoActiveQuery now p.2))
    exact List.Pairwise.map shapeDoc (fun _ _ hab => hab) hs

theorem find_one_teacher_eq_none_iff (u : String) (ts : List Teacher) :
    find_one_teacher u ts = none ↔ ∀ t ∈ ts, t.tid ≠ u := by
  induction ts with
  | nil => simp [find_one_teacher]
  | cons t rest ih =>
    by_cases h : t.tid = u <;> simp [find_one_teacher, h, ih]

theorem find_one_teacher_eq_some (u : String) (ts : List Teacher) (t : Teacher)
    (h : find_one_teacher u ts = some t) : t ∈ ts ∧ t.tid = u := by
  induction ts with
  | nil => simp [find_one_teacher] at h
  | cons t0 rest ih =>
    by_cases h0 : t0.tid = u
    · simp [find_one_teacher, h0] at h
      subst h
      exact ⟨List.mem_cons_self t0 rest, h0⟩
    · simp only [find_one_teacher, if_neg h0] at h
      rcases ih h with ⟨hm, ht⟩
      exact ⟨List.mem_cons_of_mem _ hm, ht⟩

theorem require_teacher_cases (teachers : List Teacher) (tu : Option String) :
    (∃ e, require_teacher teachers tu = .error e ∧ e.status_code = 401
        ∧ authFailSpec teachers tu)
    ∨ (∃ t, require_teacher teachers tu = .ok t ∧ ¬ authFailSpec teachers tu) := by
  rcases tu with _ | u
  · exact .inl ⟨⟨401, "Authentication required for this action"⟩, rfl, rfl, .inl rfl⟩
  · by_cases hu : u = ""
    · subst hu
      refine .inl ⟨⟨401, "Authentication required for this action"⟩, ?_, rfl,
        .inr (.inl rfl)⟩
      simp [require_teacher]
    · rcases hf : find_one_teacher u teachers with _ | t
      · refine .inl ⟨⟨401, "Invalid teacher credentials"⟩, ?_, rfl,
          .inr (.inr ⟨u, rfl, (find_one_teacher_eq_none_iff u teachers).mp hf⟩)⟩
        simp [require_teacher, hu, hf]
      · refine .inr ⟨t, ?_, ?_⟩
        · simp [require_teacher, hu, hf]
        · rintro (h | h | ⟨u', hu', hall⟩)
          · exact Option.noConfusion h
          · exact hu (Option.some.inj h)
          · rcases find_one_teacher_eq_some u teachers t hf with ⟨hm, ht⟩
            cases Option.some.inj hu'
            exact hall t hm ht

theorem parseStartsCreate_error_status (parse : String → Option Int)
    (sa : Option String) (e : HTTPException)
    (h : parseStartsCreate parse sa = .error e) : e.status_code = 400 := by
  unfold parseStartsCreate at h
  repeat' split at h
  all_goals first
    | exact Except.noConfusion h
    | (injection h with hee; subst hee; rfl)

theorem parseExpiresUpdate_error_status (parse : String → Option Int)
    (eo : Option String) (e : HTTPException)
    (h : parseExpiresUpdate parse eo = .error e) : e.status_code = 400 := by
  unfold parseExpiresUpdate at h
  repeat' split at h
  all_goals first
    | exact Except.noConfusion h
    | (injection h with hee; subst hee; rfl)

theorem parseStartsUpdate_error_status (parse : String → Option Int)
    (so : Option String) (e : HTTPException)
    (h : parseStartsUpdate parse so = .error e) : e.status_code = 400 := by
  unfold parseStartsUpdate at h
  repeat' split at h
  all_goals first
    | exact Except.noConfusion h
    | (injection h with hee; subst hee; rfl)

theorem buildUpdate_error_status (parse : String → Option Int)
    (mo eo so : Option String) (e : HTTPException)
    (h : buildUpdate parse mo eo so = .error e) : e.status_code = 400 := by
  unfold buildUpdate at h
  rcases he : parseExpiresUpdate parse eo with e1 | x1 <;> rw [he] at h
  · injection h with hee
    subst hee
    exact parseExpiresUpdate_error_status parse eo _ he
  · rcases hs : parseStartsUpdate parse so with e2 | x2 <;> rw [hs] at h
    · injection h with hee
      subst hee
      exact parseStartsUpdate_error_status parse so _ hs
    · exact Except.noConfusion h

theorem get_all_unauth_iff (teachers : List Teacher) (tu : Option String) (store : Store) :
    isUnauthenticated (get_all_announcements teachers tu store) ↔
      authFailSpec teachers tu := by
  rcases require_teacher_cases teachers tu with ⟨e, he, h401, hfail⟩ | ⟨t, ht, hnofail⟩
  · refine iff_of_true ⟨e, ?_, h401⟩ hfail
    simp [get_all_announcements, he]
  · refine iff_of_false ?_ hnofail
    rintro ⟨e', he', h401'⟩
    simp only [get_all_announcements, ht] at he'
    exact Except.noConfusion he'

theorem create_unauth_iff (parse : String → Option Int) (now : Int)
    (teachers : List Teacher) (newId : Nat) (store : Store)
    (message expires_at : String) (starts_at : Option String) (tu : Option String) :
    isUnauthenticated (create_announcement parse now teachers newId store
      message expires_at starts_at tu) ↔ authFailSpec teachers tu := by
  rcases require_teacher_cases teachers tu with ⟨e, he, h401, hfail⟩ | ⟨t, ht, hnofail⟩
  · refine iff_of_true ⟨e, ?_, h401⟩ hfail
    simp [create_announcement, he]
  · refine iff_of_false ?_ hnofail
    rintro ⟨e', he', h401'⟩
    simp only [create_announcement, ht] at he'
    rcases hps : parseStartsCreate parse starts_at with e0 | sd <;>
      simp only [hps] at he' <;> repeat' split at he'
    all_goals first
      | exact Except.noConfusion he'
      | (injection he' with hee; subst hee; simp at h401')
      | (injection he' with hee; subst hee;
         exact absurd h401'
           (by simp [parseStartsCreate_error_status parse starts_at _ hps]))

theorem update_unauth_iff (parse : String → Option Int) (parseOid : String → Option Nat)
    (teachers : List Teacher) (store : Store) (ann_id : String)
    (mo eo so : Option String) (tu : Option String) :
    isUnauthenticated (update_announcement parse parseOid teachers store ann_id
      mo eo so tu) ↔ authFailSpec teachers tu := by
  rcases require_teacher_cases teachers tu with ⟨e, he, h401, hfail⟩ | ⟨t, ht, hnofail⟩
  · refine iff_of_true ⟨e, ?_, h401⟩ hfail
    simp [update_announcement, he]
  · refine iff_of_false ?_ hnofail
    rintro ⟨e', he', h401'⟩
    simp only [update_announcement, ht] at he'
    rcases hbu : buildUpdate parse mo eo so with e0 | u0 <;>
      simp only [hbu] at he' <;> repeat' split at he'
    all_goals first
      | exact Except.noConfusion he'
      | (injection he' with hee; subst hee; simp at h401')
      | (injection he' with hee; subst hee;
         exact absurd h401'
           (by simp [buildUpdate_error_status parse mo eo so _ hbu]))

theorem delete_unauth_iff (parseOid : String → Option Nat) (teachers : List Teacher)
    (store : Store) (ann_id : String) (tu : Option String) :
    isUnauthenticated (delete_announcement parseOid teachers store ann_id tu) ↔
      authFailSpec teachers tu := by
  rcases require_teacher_cases teachers tu with ⟨e, he, h401, hfail⟩ | ⟨t, ht, hnofail⟩
  · refine iff_of_true ⟨e, ?_, h401⟩ hfail
    simp [delete_announcement, he]
  · refine iff_of_false ?_ hnofail
    rintro ⟨e', he', h401'⟩
    simp only [delete_announcement, ht] at he'
    repeat' split at he'
    all_goals first
      | exact Except.noConfusion he'
      | (injection he' with hee; subst hee; simp at h401')

/-- Claim C2: every privileged operation (list-all, create, update, delete)
fails with `Unauthenticated` (status 401) if and only if the caller-supplied
teacher identifier is absent or empty, or no teacher record with that
identifier exists; both cases are the same error kind (status 401). -/
theorem c2_privileged_unauthenticated_iff (parse : String → Option Int)
    (parseOid : String → Option Nat) (now : Int) (teachers : List Teacher)
    (newId : Nat) (store : Store) (message expires_at : String)
    (starts_at : Option String) (mo eo so : Option String) (ann_id : String)
    (tu : Option String) :
    (isUnauthenticated (get_all_announcements teachers tu store) ↔
        authFailSpec teachers tu)
    ∧ (isUnauthenticated (create_announcement parse now teachers newId store
          message expires_at starts_at tu) ↔ authFailSpec teachers tu)
    ∧ (isUnauthenticated (update_announcement parse parseOid teachers store
          ann_id mo eo so tu) ↔ authFailSpec teachers tu)
    ∧ (isUnauthenticated (delete_announcement parseOid teachers store ann_id tu) ↔
        authFailSpec teachers tu) :=
  ⟨get_all_unauth_iff teachers tu store,
   create_unauth_iff parse now teachers newId store message expires_at starts_at tu,
   update_unauth_iff parse parseOid teachers store ann_id mo eo so tu,
   delete_unauth_iff parseOid teachers store ann_id tu⟩

/-- Claim C3: a create call with a valid teacher credential, non-empty
message, parseable `expires_at` (and acceptable `starts_at`) persists a
document whose `created_by` is the teacher's username — or the teacher's
store identifier when the record has no username — and whose `created_at` is
the current server time, and returns exactly `{id, message}` with the
store-assigned id as a string. -/
theorem c3_create_persists_and_returns (parse : String → Option Int) (now : Int)
    (teachers : List Teacher) (newId : Nat) (store : Store)
    (message expires_at : String) (starts_at : Option String) (tu : Option String)
    (t : Teacher) (ed : Int)
    (hauth : require_teacher teachers tu = .ok t)
    (hm : message ≠ "") (he : expires_at ≠ "")
    (hed : parse expires_at = some ed)
    (hsa : starts_at = none ∨ starts_at = some "" ∨
      ∃ s d, starts_at = some s ∧ parse s = some d) :
    ∃ doc : Announcement,
      create_announcement parse now teachers newId store message expires_at starts_at tu
        = .ok (store ++ [(newId, doc)], ⟨toString newId, message⟩)
      ∧ doc.created_by = t.username.getD t.tid
      ∧ doc.created_at = now := by
  have hps : ∃ sd, parseStartsCreate parse starts_at = .ok sd := by
    rcases hsa with h | h | ⟨s, d, hs, hd⟩
    · exact ⟨none, by simp [parseStartsCreate, h]⟩
    · exact ⟨none, by simp [parseStartsCreate, h]⟩
    · by_cases hse : s = ""
      · exact ⟨none, by simp [parseStartsCreate, hs, hse]⟩
      · exact ⟨some d, by simp [parseStartsCreate, hs, hse, hd]⟩
  rcases hps with ⟨sd, hps⟩
  refine ⟨⟨message, sd, ed, t.username.getD t.tid, now⟩, ?_, rfl, rfl⟩
  simp [create_announcement, hauth, hm, he, hed, hps]

theorem c3_witness :
    ∃ doc : Announcement,
      create_announcement demoParse 5 demoTeachers 2 demoStore
          "Exam tomorrow" "2099-01-01T00:00" none (some "alice")
        = .ok (demoStore ++ [(2, doc)], ⟨"2", "Exam tomorrow"⟩)
      ∧ doc.created_by = (Teacher.mk "alice" (some "Ms Alice")).username.getD
          (Teacher.mk "alice" (some "Ms Alice")).tid
      ∧ doc.created_at = 5 :=
  c3_create_persists_and_returns demoParse 5 demoTeachers 2 demoStore
    "Exam tomorrow" "2099-01-01T00:00" none (some "alice")
    ⟨"alice", some "Ms Alice"⟩ 99 (by rfl) (by decide) (by decide) (by rfl)
    (Or.inl rfl)

/-- Claim C10: a create call with a valid credential, non-empty message,
parseable `expires_at`, and `starts_at` supplied as the empty string succeeds
and stores `starts_at` as absent/null — the empty string is treated as if
`starts_at` were absent, not as a parse failure. -/
theorem c10_create_empty_starts_treated_absent (parse : String → Option Int)
    (now : Int) (teachers : List Teacher) (newId : Nat) (store : Store)
    (message expires_at : String) (tu : Option String) (t : Teacher) (ed : Int)
    (hauth : require_teacher teachers tu = .ok t)
    (hm : message ≠ "") (he : expires_at ≠ "")
    (hed : parse expires_at = some ed) :
    ∃ doc : Announcement,
      create_announcement parse now teachers newId store message expires_at
          (some "") tu
        = .ok (store ++ [(newId, doc)], ⟨toString newId, message⟩)
      ∧ doc.starts_at = none := by
  refine ⟨⟨message, none, ed, t.username.getD t.tid, now⟩, ?_, rfl⟩
  simp [create_announcement, hauth, hm, he, hed, parseStartsCreate]

theorem c10_witness :
    ∃ doc : Announcement,
      create_announcement demoParse 5 demoTeachers 2 demoStore
          "Hi" "2099-01-01T00:00" (some "") (some "alice")
        = .ok (demoStore ++ [(2, doc)], ⟨"2", "Hi"⟩)
      ∧ doc.starts_at = none :=
  c10_create_empty_starts_treated_absent demoParse 5 demoTeachers 2 demoStore
    "Hi" "2099-01-01T00:00" (some "alice") ⟨"alice", some "Ms Alice"⟩ 99
    (by rfl) (by decide) (by decide) (by rfl)

/-- Counterexample to claim C5 as stated: `starts_at` supplied as the empty
string does not parse as an ISO-8601 date-time, yet the create call succeeds
instead of failing with `BadRequest`. -/
theorem c5_counterexample :
    demoParse "" = none
    ∧ create_announcement demoParse 5 demoTeachers 2 demoStore "Hi"
        "2099-01-01T00:00" (some "") (some "alice")
      = .ok (demoStore ++ [(2, ⟨"Hi", none, 99, "Ms Alice", 5⟩)], ⟨"2", "Hi"⟩) :=
  ⟨rfl, rfl⟩

/-- Claim C5 (amended): for every create call with a valid teacher credential,
the operation fails with `BadRequest` when `message` or `expires_at` is empty,
when the supplied `expires_at` does not parse, and when a supplied non-empty
`starts_at` does not parse; `starts_at` supplied as the empty string is
treated as absent instead. -/
theorem c5_create_bad_input_rejected (parse : String → Option Int) (now : Int)
    (teachers : List Teacher) (newId : Nat) (store : Store)
    (message expires_at : String) (starts_at : Option String) (tu : Option String)
    (t : Teacher) (hauth : require_teacher teachers tu = .ok t) :
    ((message = "" ∨ expires_at = "") →
      create_announcement parse now teachers newId store message expires_at starts_at tu
        = .error ⟨400, "Message and expires_at are required"⟩)
    ∧ (message ≠ "" → expires_at ≠ "" → parse expires_at = none →
      create_announcement parse now teachers newId store message expires_at starts_at tu
        = .error ⟨400, "Invalid expires_at format. Use ISO datetime format (e.g. YYYY-MM-DDTHH:MM)"⟩)
    ∧ (∀ ed s, message ≠ "" → expires_at ≠ "" → parse expires_at = some ed →
        starts_at = some s → s ≠ "" → parse s = none →
      create_announcement parse now teachers newId store message expires_at starts_at tu
        = .error ⟨400, "Invalid starts_at format. Use ISO datetime format (e.g. YYYY-MM-DDTHH:MM)"⟩) := by
  refine ⟨?_, ?_, ?_⟩
  · intro hme
    simp only [create_announcement, hauth]
    rw [if_pos hme]
  · intro hm he hpe
    simp [create_announcement, hauth, hm, he, hpe]
  · intro ed s hm he hpe hs hse hps
    subst hs
    simp [create_announcement, hauth, hm, he, hpe, parseStartsCreate, hse, hps]

theorem c5_witness :
    create_announcement demoParse 5 demoTeachers 2 demoStore "not-a-date-msg"
        "not-a-date" none (some "alice")
      = .error ⟨400, "Invalid expires_at format. Use ISO datetime format (e.g. YYYY-MM-DDTHH:MM)"⟩ :=
  (c5_create_bad_input_rejected demoParse 5 demoTeachers 2 demoStore
    "not-a-date-msg" "not-a-date" none (some "alice") ⟨"alice", some "Ms Alice"⟩
    (by rfl)).2.1 (by decide) (by decide) (by rfl)

theorem lookupDoc_eq_none_iff (oid : Nat) (l : Store) :
    lookupDoc oid l = none ↔ ∀ p ∈ l, p.1 ≠ oid := by
  induction l with
  | nil => simp [lookupDoc]
  | cons p rest ih => by_cases hp : p.1 = oid <;> simp [lookupDoc, hp, ih]

theorem updateFirst_of_lookup_none (oid : Nat) (u : UpdateFields) (store : Store)
    (h : lookupDoc oid store = none) : updateFirst oid u store = (store, 0) := by
  induction store with
  | nil => rfl
  | cons p rest ih =>
    by_cases hp : p.1 = oid
    · simp [lookupDoc, hp] at h
    · simp only [lookupDoc, if_neg hp] at h
      simp [updateFirst, hp, ih h]

theorem updateFirst_of_lookup_some (oid : Nat) (u : UpdateFields) (store : Store)
    (a : Announcement) (h : lookupDoc oid store = some a) :
    (updateFirst oid u store).2 = 1
    ∧ lookupDoc oid (updateFirst oid u store).1 = some (applyUpdate u a)
    ∧ ∀ k, k ≠ oid → lookupDoc k (updateFirst oid u store).1 = lookupDoc k store := by
  induction store with
  | nil => simp [lookupDoc] at h
  | cons p rest ih =>
    by_cases hp : p.1 = oid
    · simp only [lookupDoc, if_pos hp] at h
      cases Option.some.inj h
      refine ⟨?_, ?_, ?_⟩
      · simp [updateFirst, hp]
      · simp [updateFirst, hp, lookupDoc]
      · intro k hk
        have hk2 : ¬ (oid = k) := fun hh => hk hh.symm
        have hk1 : ¬ (p.1 = k) := by rw [hp]; exact hk2
        simp [updateFirst, hp, lookupDoc, hk1, hk2]
    · simp only [lookupDoc, if_neg hp] at h
      rcases ih h with ⟨h1, h2, h3⟩
      refine ⟨?_, ?_, ?_⟩
      · simp [updateFirst, hp, h1]
      · simp [updateFirst, hp, lookupDoc, h2]
      · intro k hk
        by_cases hpk : p.1 = k
        · simp [updateFirst, hp, lookupDoc, hpk, hk]
        · simp [updateFirst, hp, lookupDoc, hpk, h3 k hk]

theorem deleteFirst_of_lookup_none (oid : Nat) (store : Store)
    (h : lookupDoc oid store = none) : deleteFirst oid store = (store, 0) := by
  induction store with
  | nil => rfl
  | cons p rest ih =>
    by_cases hp : p.1 = oid
    · simp [lookupDoc, hp] at h
    · simp only [lookupDoc, if_neg hp] at h
      simp [deleteFirst, hp, ih h]

theorem deleteFirst_of_lookup_some (oid : Nat) (store : Store) (a : Announcement)
    (h : lookupDoc oid store = some a) :
    ∃ l1 l2, store = l1 ++ (oid, a) :: l2 ∧ (∀ p ∈ l1, p.1 ≠ oid)
      ∧ deleteFirst oid store = (l1 ++ l2, 1) := by
  induction store with
  | nil => simp [lookupDoc] at h
  | cons p rest ih =>
    by_cases hp : p.1 = oid
    · simp only [lookupDoc, if_pos hp] at h
      cases Option.some.inj h
      refine ⟨[], rest, ?_, by simp, by simp [deleteFirst, hp]⟩
      rw [List.nil_append, ← hp, Prod.mk.eta]
    · simp only [lookupDoc, if_neg hp] at h
      rcases ih h with ⟨l1, l2, hsplit, hnone, hdel⟩
      refine ⟨p :: l1, l2, by simp [hsplit], ?_, by simp [deleteFirst, hp, hdel]⟩
      intro q hq
      rcases List.mem_cons.mp hq with hq | hq
      · subst hq; exact hp
      · exact hnone q hq

/-- Claim C4: a successful update changes only the supplied fields of the
targeted announcement; unsupplied fields, `created_by`, `created_at` and all
other announcements are unchanged, and the response is `{id, updated: true}`. -/
theorem c4_update_frame (parse : String → Option Int) (parseOid : String → Option Nat)
    (teachers : List Teacher) (store : Store) (ann_id : String)
    (mo eo so : Option String) (tu : Option String) (t : Teacher) (oid : Nat)
    (u : UpdateFields) (a : Announcement)
    (hauth : require_teacher teachers tu = .ok t)
    (hoid : parseOid ann_id = some oid)
    (hbu : buildUpdate parse mo eo so = .ok u)
    (hne : u.isEmpty = false)
    (hfound : lookupDoc oid store = some a) :
    ∃ store', update_announcement parse parseOid teachers store ann_id mo eo so tu
        = .ok (store', ⟨ann_id, true⟩)
      ∧ lookupDoc oid store' = some (applyUpdate u a)
      ∧ (∀ k, k ≠ oid → lookupDoc k store' = lookupDoc k store)
      ∧ (u.message = none → (applyUpdate u a).message = a.message)
      ∧ (u.expires_at = none → (applyUpdate u a).expires_at = a.expires_at)
      ∧ (u.starts_at = none → (applyUpdate u a).starts_at = a.starts_at)
      ∧ (∀ m, u.message = some m → (applyUpdate u a).message = m)
      ∧ (∀ d, u.expires_at = some d → (applyUpdate u a).expires_at = d)
      ∧ (∀ x, u.starts_at = some x → (applyUpdate u a).starts_at = x)
      ∧ (applyUpdate u a).created_by = a.created_by
      ∧ (applyUpdate u a).created_at = a.created_at := by
  rcases updateFirst_of_lookup_some oid u store a hfound with ⟨h1, h2, h3⟩
  refine ⟨(updateFirst oid u store).1, ?_, h2, h3, ?_, ?_, ?_, ?_, ?_, ?_, rfl, rfl⟩
  · simp [update_announcement, hauth, hoid, hbu, hne, h1]
  · intro h; simp [applyUpdate, h]
  · intro h; simp [applyUpdate, h]
  · intro h; simp [applyUpdate, h]
  · intro m h; simp [applyUpdate, h]
  · intro d h; simp [applyUpdate, h]
  · intro x h; simp [applyUpdate, h]

theorem c4_witness :
    ∃ store', update_announcement demoParse demoOid demoTeachers demoStore "1"
        (some "Updated") none none (some "alice")
        = .ok (store', ⟨"1", true⟩)
      ∧ lookupDoc 1 store' = some (applyUpdate ⟨some "Updated", none, none⟩ demoAnn)
      ∧ (∀ k, k ≠ 1 → lookupDoc k store' = lookupDoc k demoStore)
      ∧ ((UpdateFields.mk (some "Updated") none none).message = none →
          (applyUpdate ⟨some "Updated", none, none⟩ demoAnn).message = demoAnn.message)
      ∧ ((UpdateFields.mk (some "Updated") none none).expires_at = none →
          (applyUpdate ⟨some "Updated", none, none⟩ demoAnn).expires_at = demoAnn.expires_at)
      ∧ ((UpdateFields.mk (some "Updated") none none).starts_at = none →
          (applyUpdate ⟨some "Updated", none, none⟩ demoAnn).starts_at = demoAnn.starts_at)
      ∧ (∀ m, (UpdateFields.mk (some "Updated") none none).message = some m →
          (applyUpdate ⟨some "Updated", none, none⟩ demoAnn).message = m)
      ∧ (∀ d, (UpdateFields.mk (some "Updated") none none).expires_at = some d →
          (applyUpdate ⟨some "Updated", none, none⟩ demoAnn).expires_at = d)
      ∧ (∀ x, (UpdateFields.mk (some "Updated") none none).starts_at = some x →
          (applyUpdate ⟨some "Updated", none, none⟩ demoAnn).starts_at = x)
      ∧ (applyUpdate ⟨some "Updated", none, none⟩ demoAnn).created_by = demoAnn.created_by
      ∧ (applyUpdate ⟨some "Updated", none, none⟩ demoAnn).created_at = demoAnn.created_at :=
  c4_update_frame demoParse demoOid demoTeachers demoStore "1"
    (some "Updated") none none (some "alice") ⟨"alice", some "Ms Alice"⟩ 1
    ⟨some "Updated", none, none⟩ demoAnn
    (by rfl) (by rfl) (by rfl) (by rfl) (by rfl)

/-- Claim C6: an update call with a valid credential and the well-formed id of
an existing announcement that supplies `starts_at` as the empty string
succeeds (the empty string is not parsed) and sets the stored `starts_at` to
absent/null, so a subsequent read shows it absent. -/
theorem c6_update_empty_starts_clears (parse : String → Option Int)
    (parseOid : String → Option Nat) (teachers : List Teacher) (store : Store)
    (ann_id : String) (mo eo : Option String) (tu : Option String) (t : Teacher)
    (oid : Nat) (a : Announcement)
    (hauth : require_teacher teachers tu = .ok t)
    (hoid : parseOid ann_id = some oid)
    (heo : eo = none ∨ ∃ s d, eo = some s ∧ parse s = some d)
    (hfound : lookupDoc oid store = some a) :
    ∃ store' a', update_announcement parse parseOid teachers store ann_id mo eo
        (some "") tu = .ok (store', ⟨ann_id, true⟩)
      ∧ lookupDoc oid store' = some a'
      ∧ a'.starts_at = none := by
  have hbu : ∃ xo, buildUpdate parse mo eo (some "") = .ok ⟨mo, xo, some none⟩ := by
    rcases heo with h | ⟨s, d, hs, hd⟩
    · exact ⟨none, by simp [buildUpdate, parseExpiresUpdate, parseStartsUpdate, h]⟩
    · exact ⟨some d, by simp [buildUpdate, parseExpiresUpdate, parseStartsUpdate, hs, hd]⟩
  rcases hbu with ⟨xo, hbu⟩
  have hne : (UpdateFields.mk mo xo (some none)).isEmpty = false := by
    simp [UpdateFields.isEmpty]
  rcases updateFirst_of_lookup_some oid ⟨mo, xo, some none⟩ store a hfound with ⟨h1, h2, h3⟩
  refine ⟨(updateFirst oid ⟨mo, xo, some none⟩ store).1,
    applyUpdate ⟨mo, xo, some none⟩ a, ?_, h2, ?_⟩
  · simp [update_announcement, hauth, hoid, hbu, hne, h1]
  · simp [applyUpdate]

theorem c6_witness :
    ∃ store' a', update_announcement demoParse demoOid demoTeachers demoStore2 "7"
        none none (some "") (some "alice") = .ok (store', ⟨"7", true⟩)
      ∧ lookupDoc 7 store' = some a'
      ∧ a'.starts_at = none :=
  c6_update_empty_starts_clears demoParse demoOid demoTeachers demoStore2 "7"
    none none (some "alice") ⟨"alice", some "Ms Alice"⟩ 7 demoAnn2
    (by rfl) (by rfl) (Or.inl rfl) (by rfl)

/-- Claim C7: an update call with a valid credential and well-formed id fails
with `BadRequest` when no field was supplied, and fails with `NotFound` when
at least one field was supplied and parsed but no announcement with that id
exists. -/
theorem c7_update_nofields_and_notfound (parse : String → Option Int)
    (parseOid : String → Option Nat) (teachers : List Teacher) (store : Store)
    (ann_id : String) (tu : Option String) (t : Teacher) (oid : Nat)
    (hauth : require_teacher teachers tu = .ok t)
    (hoid : parseOid ann_id = some oid) :
    (update_announcement parse parseOid teachers store ann_id none none none tu
        = .error ⟨400, "No fields to update"⟩)
    ∧ (∀ mo eo so u, buildUpdate parse mo eo so = .ok u → u.isEmpty = false →
        lookupDoc oid store = none →
        update_announcement parse parseOid teachers store ann_id mo eo so tu
          = .error ⟨404, "Announcement not found"⟩) := by
  constructor
  · have hbu : buildUpdate parse none none none = .ok ⟨none, none, none⟩ := rfl
    simp [update_announcement, hauth, hoid, hbu, UpdateFields.isEmpty]
  · intro mo eo so u hbu hne hnone
    have hupd := updateFirst_of_lookup_none oid u store hnone
    simp [update_announcement, hauth, hoid, hbu, hne, hupd]

theorem c7_witness :
    update_announcement demoParse demoOid demoTeachers demoStore "99"
        (some "x") none none (some "alice")
      = .error ⟨404, "Announcement not found"⟩ :=
  (c7_update_nofields_and_notfound demoParse demoOid demoTeachers demoStore "99"
    (some "alice") ⟨"alice", some "Ms Alice"⟩ 99 (by rfl) (by rfl)).2
    (some "x") none none ⟨some "x", none, none⟩ (by rfl) (by rfl) (by rfl)

/-- Claim C8: with a valid credential and well-formed id, delete removes
exactly the matching record and returns `{id, deleted: true}` when it exists,
and fails with `NotFound` when it does not; hence (with the store's unique
ids) deleting the same id twice succeeds first and fails with `NotFound`
second. -/
theorem c8_delete_semantics (parseOid : String → Option Nat) (teachers : List Teacher)
    (store : Store) (ann_id : String) (tu : Option String) (t : Teacher) (oid : Nat)
    (hauth : require_teacher teachers tu = .ok t)
    (hoid : parseOid ann_id = some oid) :
    (∀ a, lookupDoc oid store = some a →
      ∃ l1 l2, store = l1 ++ (oid, a) :: l2 ∧ (∀ p ∈ l1, p.1 ≠ oid)
        ∧ delete_announcement parseOid teachers store ann_id tu
            = .ok (l1 ++ l2, ⟨ann_id, true⟩))
    ∧ (lookupDoc oid store = none →
        delete_announcement parseOid teachers store ann_id tu
          = .error ⟨404, "Announcement not found"⟩)
    ∧ ((store.map Prod.fst).Nodup → ∀ a, lookupDoc oid store = some a →
        ∃ store', delete_announcement parseOid teachers store ann_id tu
            = .ok (store', ⟨ann_id, true⟩)
          ∧ delete_announcement parseOid teachers store' ann_id tu
              = .error ⟨404, "Announcement not found"⟩) := by
  refine ⟨?_, ?_, ?_⟩
  · intro a hfound
    rcases deleteFirst_of_lookup_some oid store a hfound with ⟨l1, l2, hsplit, hpre, hdel⟩
    exact ⟨l1, l2, hsplit, hpre, by simp [delete_announcement, hauth, hoid, hdel]⟩
  · intro hnone
    have hdel := deleteFirst_of_lookup_none oid store hnone
    simp [delete_announcement, hauth, hoid, hdel]
  · intro hnd a hfound
    rcases deleteFirst_of_lookup_some oid store a hfound with ⟨l1, l2, hsplit, hpre, hdel⟩
    have hmap : store.map Prod.fst = l1.map Prod.fst ++ oid :: l2.map Prod.fst := by
      simp [hsplit]
    rw [hmap] at hnd
    rcases List.nodup_append.mp hnd with ⟨_, hnd2, _⟩
    have hnotl2 : oid ∉ l2.map Prod.fst := (List.nodup_cons.mp hnd2).1
    have hlook2 : lookupDoc oid (l1 ++ l2) = none := by
      rw [lookupDoc_eq_none_iff]
      intro p hp
      rcases List.mem_append.mp hp with hp | hp
      · exact hpre p hp
      · intro hpe
        exact hnotl2 (List.mem_map.mpr ⟨p, hp, hpe⟩)
    have hdel2 := deleteFirst_of_lookup_none oid (l1 ++ l2) hlook2
    exact ⟨l1 ++ l2, by simp [delete_announcement, hauth, hoid, hdel],
      by simp [delete_announcement, hauth, hoid, hdel2]⟩

theorem c8_witness :
    ∃ store', delete_announcement demoOid demoTeachers demoStore "1" (some "alice")
        = .ok (store', ⟨"1", true⟩)
      ∧ delete_announcement demoOid demoTeachers store' "1" (some "alice")
          = .error ⟨404, "Announcement not found"⟩ :=
  (c8_delete_semantics demoOid demoTeachers demoStore "1" (some "alice")
    ⟨"alice", some "Ms Alice"⟩ 1 (by rfl) (by rfl)).2.2 (by decide) demoAnn (by rfl)

/-- Counterexample to claim C9 as stated: an update call may set the stored
message to the empty string — updating the demo announcement with
`message=""` succeeds and persists the empty message. -/
theorem c9_counterexample :
    update_announcement demoParse demoOid demoTeachers demoStore "1"
        (some "") none none (some "alice")
      = .ok ([(1, ⟨"", none, 99, "Ms Alice", 0⟩)], ⟨"1", true⟩) := rfl

/-- Claim C9 (amended): create rejects an empty message, but update applies a
supplied empty message verbatim: an update supplying `message=""` on an
existing announcement succeeds and stores the empty message, so non-emptiness
of `message` is enforced at creation but not preserved by update. -/
theorem c9_amended_message_not_invariant (parse : String → Option Int)
    (parseOid : String → Option Nat) (teachers : List Teacher) (store : Store)
    (ann_id : String) (tu : Option String) (t : Teacher) (oid : Nat) (a : Announcement)
    (hauth : require_teacher teachers tu = .ok t)
    (hoid : parseOid ann_id = some oid)
    (hfound : lookupDoc oid store = some a) :
    (∀ now newId expires_at starts_at,
      create_announcement parse now teachers newId store "" expires_at starts_at tu
        = .error ⟨400, "Message and expires_at are required"⟩)
    ∧ ∃ store', update_announcement parse parseOid teachers store ann_id
          (some "") none none tu = .ok (store', ⟨ann_id, true⟩)
        ∧ ∃ a', lookupDoc oid store' = some a' ∧ a'.message = "" := by
  constructor
  · intro now newId expires_at starts_at
    simp [create_announcement, hauth]
  · have hbu : buildUpdate parse (some "") none none = .ok ⟨some "", none, none⟩ := rfl
    have hne : (UpdateFields.mk (some "") none none).isEmpty = false := by
      simp [UpdateFields.isEmpty]
    rcases updateFirst_of_lookup_some oid ⟨some "", none, none⟩ store a hfound with
      ⟨h1, h2, h3⟩
    refine ⟨(updateFirst oid ⟨some "", none, none⟩ store).1, ?_,
      applyUpdate ⟨some "", none, none⟩ a, h2, ?_⟩
    · simp [update_announcement, hauth, hoid, hbu, hne, h1]
    · simp [applyUpdate]

theorem c9_witness :
    ∃ store', update_announcement demoParse demoOid demoTeachers demoStore "1"
        (some "") none none (some "alice") = .ok (store', ⟨"1", true⟩)
      ∧ ∃ a', lookupDoc 1 store' = some a' ∧ a'.message = "" :=
  (c9_amended_message_not_invariant demoParse demoOid demoTeachers demoStore "1"
    (some "alice") ⟨"alice", some "Ms Alice"⟩ 1 demoAnn
    (by rfl) (by rfl) (by rfl)).2
